import Mathlib

/-!
Verification development for the live-text repository: a real-time speech
transcription client in two near-duplicate variants (V0, the plain
transcriber, and V1, the transcriber plus lecture-notes summarizer).  The
definitions below are a shallow embedding of the relevant source functions:
`encode`, `createBlob`, `stopTranscription`, `handleMessage`, `handleError`,
`startTranscription`, the `onclose` callback, and the `onaudioprocess`
frame-sending pipeline.
-/

namespace LiveText

/-- The status enum used by both app variants (src types: IDLE, CONNECTING,
RECORDING, STOPPING, ERROR). -/
inductive TranscriptionStatus
  | IDLE
  | CONNECTING
  | RECORDING
  | STOPPING
  | ERROR
deriving DecidableEq

/-- Audio constant from the source: `const INPUT_SAMPLE_RATE = 16000`. -/
def INPUT_SAMPLE_RATE : Nat := 16000

/-- Audio constant from the source: `const SCRIPT_PROCESSOR_BUFFER_SIZE = 4096`. -/
def SCRIPT_PROCESSOR_BUFFER_SIZE : Nat := 4096

/-- The standard base-64 alphabet used by the browser's btoa/atob. -/
def base64Chars : List Char :=
  "ABCDEFGHIJKLMNOPQRSTUVWXYZabcdefghijklmnopqrstuvwxyz0123456789+/".toList

/-- Character for a 6-bit value (btoa digit). -/
def b64char (n : Nat) : Char := base64Chars.getD n 'A'

/-- Six-bit value of a base-64 digit (atob digit lookup). -/
def b64val (c : Char) : Nat := base64Chars.findIdx (fun d => d == c)

/-- Base-64 encoding of a byte list, three bytes to four digits with `=`
padding, exactly as btoa encodes the binary string built by the source's
`encode`. -/
def base64Encode : List Nat → List Char
  | [] => []
  | [b0] => [b64char (b0 / 4), b64char (b0 % 4 * 16), '=', '=']
  | [b0, b1] =>
      [b64char (b0 / 4), b64char (b0 % 4 * 16 + b1 / 16), b64char (b1 % 16 * 4), '=']
  | b0 :: b1 :: b2 :: rest =>
      b64char (b0 / 4) :: b64char (b0 % 4 * 16 + b1 / 16) ::
        b64char (b1 % 16 * 4 + b2 / 64) :: b64char (b2 % 64) :: base64Encode rest

/-- Reassemble bytes from a list of 6-bit values (the core of base-64
decoding, after padding characters have been dropped). -/
def sextetsToBytes : List Nat → List Nat
  | [] => []
  | [_] => []
  | [s0, s1] => [s0 * 4 + s1 / 16]
  | [s0, s1, s2] => [s0 * 4 + s1 / 16, s1 % 16 * 16 + s2 / 4]
  | s0 :: s1 :: s2 :: s3 :: rest =>
      (s0 * 4 + s1 / 16) :: (s1 % 16 * 16 + s2 / 4) :: (s2 % 4 * 64 + s3) ::
        sextetsToBytes rest

/-- Source `encode(bytes)`: builds a binary string from the bytes with
String.fromCharCode and applies btoa, i.e. standard base-64 encoding of the
byte sequence. -/
def encode (bytes : List Nat) : String := String.mk (base64Encode bytes)

/-- Standard base-64 decoding (the inverse appealed to by the round-trip
property): strip padding, map digits to 6-bit values, reassemble bytes. -/
def base64Decode (s : String) : List Nat :=
  sextetsToBytes ((s.data.filter (fun c => c != '=')).map b64val)

/-- Truncation toward zero on the rationals, the integer conversion JS
performs when a number is stored into an Int16Array. -/
def ratTrunc (q : ℚ) : Int := if 0 ≤ q then ⌊q⌋ else ⌈q⌉

/-- JS Int16Array element write for `data[i] * 32768`: the product is
truncated toward zero and reduced modulo 2^16 (two's-complement bit pattern,
viewed here as the unsigned 16-bit value; no clamping).  Float32 samples are
dyadic rationals and scaling by 32768 is exact, so modelling samples as ℚ is
faithful for every finite input. -/
def jsToInt16 (x : ℚ) : Nat := ((ratTrunc (x * 32768)) % 65536).toNat

/-- Little-endian bytes of a 16-bit value, as a Uint8Array view of the
Int16Array buffer reads them. -/
def toLEBytes (v : Nat) : List Nat := [v % 256, v / 256 % 256]

/-- The Blob value `createBlob` returns: base-64 data plus MIME tag. -/
structure Blob where
  data : String
  mimeType : String
deriving DecidableEq

/-- Source `createBlob(data)`: scale each Float32 sample by 32768 into an
Int16Array, view its buffer as bytes, base-64 encode, tag with the PCM MIME
type carrying INPUT_SAMPLE_RATE. -/
def createBlob (d : List ℚ) : Blob :=
  { data := encode ((d.map fun x => toLEBytes (jsToInt16 x)).flatten)
    mimeType := "audio/pcm;rate=" ++ toString INPUT_SAMPLE_RATE }

theorem b64val_b64char : ∀ n < 64, b64val (b64char n) = n := by decide

theorem b64char_ne_pad : ∀ n < 64, (b64char n != '=') = true := by decide

/-- Induction on a list in chunks of three, matching the grouping of
base-64 encoding. -/
def chunks3Ind {motive : List Nat → Prop} (h0 : motive [])
    (h1 : ∀ b0, motive [b0]) (h2 : ∀ b0 b1, motive [b0, b1])
    (h3 : ∀ b0 b1 b2 rest, motive rest → motive (b0 :: b1 :: b2 :: rest)) :
    ∀ l, motive l
  | [] => h0
  | [b0] => h1 b0
  | [b0, b1] => h2 b0 b1
  | b0 :: b1 :: b2 :: rest => h3 b0 b1 b2 rest (chunks3Ind h0 h1 h2 h3 rest)

theorem base64_decode_encode (bs : List Nat) (h : ∀ b ∈ bs, b < 256) :
    base64Decode (encode bs) = bs := by
  unfold base64Decode encode
  show sextetsToBytes (((base64Encode bs).filter (fun c => c != '=')).map b64val) = bs
  induction bs using chunks3Ind with
  | h0 => simp [base64Encode, sextetsToBytes]
  | h1 b0 =>
      have hb0 : b0 < 256 := h b0 (by simp)
      have e0 := b64char_ne_pad (b0 / 4) (by omega)
      have e1 := b64char_ne_pad (b0 % 4 * 16) (by omega)
      have v0 := b64val_b64char (b0 / 4) (by omega)
      have v1 := b64val_b64char (b0 % 4 * 16) (by omega)
      simp only [base64Encode, List.filter_cons, e0, e1, if_pos, bne_self_eq_false,
        Bool.false_eq_true, if_neg, List.filter_nil, List.map_cons, List.map_nil,
        v0, v1, sextetsToBytes, List.cons.injEq, and_true]
      omega
  | h2 b0 b1 =>
      have hb0 : b0 < 256 := h b0 (by simp)
      have hb1 : b1 < 256 := h b1 (by simp)
      have e0 := b64char_ne_pad (b0 / 4) (by omega)
      have e1 := b64char_ne_pad (b0 % 4 * 16 + b1 / 16) (by omega)
      have e2 := b64char_ne_pad (b1 % 16 * 4) (by omega)
      have v0 := b64val_b64char (b0 / 4) (by omega)
      have v1 := b64val_b64char (b0 % 4 * 16 + b1 / 16) (by omega)
      have v2 := b64val_b64char (b1 % 16 * 4) (by omega)
      simp only [base64Encode, List.filter_cons, e0, e1, e2, if_pos, bne_self_eq_false,
        Bool.false_eq_true, if_neg, List.filter_nil, List.map_cons, List.map_nil,
        v0, v1, v2, sextetsToBytes, List.cons.injEq, and_true]
      constructor
      · omega
      · omega
  | h3 b0 b1 b2 rest ih =>
      have hb0 : b0 < 256 := h b0 (by simp)
      have hb1 : b1 < 256 := h b1 (by simp)
      have hb2 : b2 < 256 := h b2 (by simp)
      have e0 := b64char_ne_pad (b0 / 4) (by omega)
      have e1 := b64char_ne_pad (b0 % 4 * 16 + b1 / 16) (by omega)
      have e2 := b64char_ne_pad (b1 % 16 * 4 + b2 / 64) (by omega)
      have e3 := b64char_ne_pad (b2 % 64) (by omega)
      have v0 := b64val_b64char (b0 / 4) (by omega)
      have v1 := b64val_b64char (b0 % 4 * 16 + b1 / 16) (by omega)
      have v2 := b64val_b64char (b1 % 16 * 4 + b2 / 64) (by omega)
      have v3 := b64val_b64char (b2 % 64) (by omega)
      have ih' := ih (fun b hb => h b (by simp [hb]))
      simp only [base64Encode, List.filter_cons, e0, e1, e2, e3, if_pos,
        List.map_cons, v0, v1, v2, v3, sextetsToBytes, List.cons.injEq]
      exact ⟨by omega, by omega, by omega, ih'⟩

theorem createBlob_bytes_lt (d : List ℚ) :
    ∀ b ∈ (d.map fun x => toLEBytes (jsToInt16 x)).flatten, b < 256 := by
  intro b hb
  rw [List.mem_flatten] at hb
  obtain ⟨l, hl, hbl⟩ := hb
  rw [List.mem_map] at hl
  obtain ⟨x, _, hx⟩ := hl
  subst hx
  simp only [toLEBytes, List.mem_cons, List.not_mem_nil, or_false] at hbl
  rcases hbl with h | h <;> omega

theorem flatten_LEBytes_length (d : List ℚ) :
    ((d.map fun x => toLEBytes (jsToInt16 x)).flatten).length = 2 * d.length := by
  induction d with
  | nil => simp
  | cons x xs ih =>
      rw [List.map_cons, List.flatten_cons, List.length_append, ih]
      simp only [toLEBytes, List.length_cons, List.length_nil, List.length_cons]
      omega

/-- C3: decoding the base-64 data field of the Blob produced by `createBlob`
yields exactly the little-endian byte sequence of the 16-bit values obtained
by multiplying each input sample by 32768 and truncating to 16 bits
(out-of-range products wrap modulo 2^16, no clamping), two bytes — one
16-bit output sample — per input sample. -/
theorem C3_createBlob_base64_roundtrip (d : List ℚ) :
    base64Decode (createBlob d).data = (d.map fun x => toLEBytes (jsToInt16 x)).flatten
    ∧ (base64Decode (createBlob d).data).length = 2 * d.length := by
  have h := base64_decode_encode ((d.map fun x => toLEBytes (jsToInt16 x)).flatten)
    (createBlob_bytes_lt d)
  refine ⟨h, ?_⟩
  rw [show (createBlob d).data = encode ((d.map fun x => toLEBytes (jsToInt16 x)).flatten) from rfl,
    h, flatten_LEBytes_length]

/-- The whitespace characters removed by the JS String trim operation
(ECMA WhiteSpace and LineTerminator code points; further Unicode space
separators behave identically and are omitted). -/
def isJsWhitespace (c : Char) : Bool :=
  c.toNat == 0x9 || c.toNat == 0xA || c.toNat == 0xB || c.toNat == 0xC ||
  c.toNat == 0xD || c.toNat == 0x20 || c.toNat == 0xA0 || c.toNat == 0xFEFF ||
  c.toNat == 0x2028 || c.toNat == 0x2029

/-- JS `String.prototype.trim`: drop leading and trailing whitespace. -/
def jsTrim (s : String) : String :=
  String.mk (((s.data.dropWhile isJsWhitespace).reverse.dropWhile isJsWhitespace).reverse)

/-- State of an AudioContext (the source only distinguishes closed from the
rest, via `audioContextRef.current.state !== 'closed'`). -/
inductive CtxState
  | running
  | suspended
  | closed
deriving DecidableEq

/-- The externally observable release steps performed by the teardown
sequence, in the order the source performs them: `session.close()`,
`track.stop()` on all capture tracks, `scriptProcessor.disconnect()`,
`audioContext.close()`. -/
inductive TeardownAction
  | closeSession
  | stopTracks
  | disconnectProcessor
  | closeContext
deriving DecidableEq

/-- External acquisition requests issued by `startTranscription`. -/
inductive ExtCall
  | getUserMedia
  | connect
deriving DecidableEq

/-- A LiveServerMessage as `handleMessage` inspects it: an optional incoming
transcript fragment (`serverContent.inputTranscription.text`) and the
turn-complete flag (`serverContent.turnComplete`). -/
structure Msg where
  inputTranscription : Option String
  turnComplete : Bool
deriving DecidableEq

/-- A fragment-only server message. -/
def fragMsg (t : String) : Msg := ⟨some t, false⟩

/-- A turn-complete-only server message. -/
def turnMsg : Msg := ⟨none, true⟩

/-- An error event as `handleError` inspects it: either an Error instance
carrying a message, or some other event value. -/
inductive ErrEvent
  | error (message : String)
  | event
deriving DecidableEq

/-- The message text `handleError` extracts
(`e instanceof Error ? e.message : 'An unknown error occurred.'`). -/
def errText : ErrEvent → String
  | .error msg => msg
  | .event => "An unknown error occurred."

namespace V0

/-- State of the plain-transcriber app (src/unnamed/part_000): React state
(status, transcription, error) plus the refs (currentTranscriptionRef and
the four resource refs).  Resource refs are modelled by presence flags; the
audio-context ref also carries the context's state, which its teardown
guard inspects. -/
structure AppState where
  status : LiveText.TranscriptionStatus
  transcription : String
  error : Option String
  currentTranscription : String
  sessionPromise : Bool
  stream : Bool
  scriptProcessor : Bool
  audioContext : Option LiveText.CtxState
deriving DecidableEq

/-- Source `stopTranscription` of part_000 (lines 47-76): sets STOPPING,
releases each of the four resources behind its own presence guard (the
audio context additionally guarded by `state !== 'closed'`), flushes a
non-empty live buffer into the transcript, and ends at IDLE.  The returned
list records the release calls actually performed, in program order. -/
def stopTranscription (s : AppState) : AppState × List LiveText.TeardownAction :=
  ({ status := LiveText.TranscriptionStatus.IDLE
     transcription :=
       if s.currentTranscription = "" then s.transcription
       else LiveText.jsTrim (s.transcription ++ s.currentTranscription)
     error := s.error
     currentTranscription := if s.currentTranscription = "" then s.currentTranscription else ""
     sessionPromise := false
     stream := false
     scriptProcessor := false
     audioContext :=
       match s.audioContext with
       | some st => if st = LiveText.CtxState.closed then some st else none
       | none => none },
   (if s.sessionPromise then [LiveText.TeardownAction.closeSession] else []) ++
   (if s.stream then [LiveText.TeardownAction.stopTracks] else []) ++
   (if s.scriptProcessor then [LiveText.TeardownAction.disconnectProcessor] else []) ++
   (match s.audioContext with
    | some st => if st = LiveText.CtxState.closed then [] else [LiveText.TeardownAction.closeContext]
    | none => []))

/-- Source `handleMessage` of part_000 (lines 78-90): append an incoming
fragment to the live ref and the displayed transcript; on turn completion
trim the transcript, append the paragraph separator and clear the live
ref. -/
def handleMessage (m : LiveText.Msg) (s : AppState) : AppState :=
  let s :=
    match m.inputTranscription with
    | some t =>
        { s with currentTranscription := s.currentTranscription ++ t,
                 transcription := s.transcription ++ t }
    | none => s
  if m.turnComplete then
    { s with transcription := LiveText.jsTrim s.transcription ++ "\n\n",
             currentTranscription := "" }
  else s

/-- Source `handleError` of part_000 (lines 92-97): record the user-visible
error message, then run the full stop/teardown. -/
def handleError (e : LiveText.ErrEvent) (s : AppState) : AppState × List LiveText.TeardownAction :=
  stopTranscription
    { s with error := some ("Error: " ++ LiveText.errText e ++ ". Please try again.") }

/-- Source `onclose` callback of part_000 (lines 136-140).  The `status`
the callback compares is the value captured by the render closure in which
`startTranscription` ran, not the live state at handling time; it is passed
here as `capturedStatus`, distinct from `s.status`. -/
def onclose (capturedStatus : LiveText.TranscriptionStatus) (s : AppState) :
    AppState × List LiveText.TeardownAction :=
  if capturedStatus ≠ LiveText.TranscriptionStatus.STOPPING ∧
      capturedStatus ≠ LiveText.TranscriptionStatus.IDLE then
    stopTranscription s
  else (s, [])

/-- Source `startTranscription` of part_000 (lines 99-153), up to its first
suspension point: reset status/error/buffers, then either fail on a missing
API key (the thrown error is caught by `handleError`, which runs the
teardown) or request the microphone and open the session.  The async
continuations (onopen wiring, await results) are the separately modelled
callbacks.  Returned alongside the state: the external acquisition calls
issued and the teardown calls performed. -/
def startTranscription (apiKey : Option String) (s : AppState) :
    AppState × List LiveText.ExtCall × List LiveText.TeardownAction :=
  let s := { s with status := LiveText.TranscriptionStatus.CONNECTING,
                    error := none, transcription := "", currentTranscription := "" }
  match apiKey with
  | none =>
      let r := handleError (.error "API_KEY environment variable not set.") s
      (r.1, [], r.2)
  | some _ =>
      ({ s with stream := true, sessionPromise := true },
       [LiveText.ExtCall.getUserMedia, LiveText.ExtCall.connect], [])

end V0

namespace V1

/-- State of the transcriber-plus-notes app (src/unnamed/part_001): as V0
plus the lecture-notes buffer, the `aiRef` client handle, and
`notesRequests`, the trace of transcript chunks handed to `generateNotes`
(each entry is one summarization request actually issued; the asynchronous
response handling inside `generateNotes` only touches the notes buffer). -/
structure AppState where
  status : LiveText.TranscriptionStatus
  transcription : String
  lectureNotes : String
  error : Option String
  currentTranscription : String
  aiRef : Bool
  sessionPromise : Bool
  stream : Bool
  scriptProcessor : Bool
  audioContext : Option LiveText.CtxState
  notesRequests : List String
deriving DecidableEq

/-- Source `stopTranscription` of part_001 (lines 51-77): identical guarded
teardown sequence, then clears `aiRef`; unlike part_000 it does not touch
the transcript or the live buffer. -/
def stopTranscription (s : AppState) : AppState × List LiveText.TeardownAction :=
  ({ s with
     status := LiveText.TranscriptionStatus.IDLE
     aiRef := false
     sessionPromise := false
     stream := false
     scriptProcessor := false
     audioContext :=
       match s.audioContext with
       | some st => if st = LiveText.CtxState.closed then some st else none
       | none => none },
   (if s.sessionPromise then [LiveText.TeardownAction.closeSession] else []) ++
   (if s.stream then [LiveText.TeardownAction.stopTracks] else []) ++
   (if s.scriptProcessor then [LiveText.TeardownAction.disconnectProcessor] else []) ++
   (match s.audioContext with
    | some st => if st = LiveText.CtxState.closed then [] else [LiveText.TeardownAction.closeContext]
    | none => []))

/-- Source `handleMessage` of part_001 (lines 101-116): as V0, except that
on turn completion the trimmed live buffer, when non-empty, is handed to
`generateNotes` (which issues a request only when `aiRef` is set — its
first line returns otherwise). -/
def handleMessage (m : LiveText.Msg) (s : AppState) : AppState :=
  let s :=
    match m.inputTranscription with
    | some t =>
        { s with currentTranscription := s.currentTranscription ++ t,
                 transcription := s.transcription ++ t }
    | none => s
  if m.turnComplete then
    let textToSummarize := LiveText.jsTrim s.currentTranscription
    { s with
      notesRequests :=
        if textToSummarize ≠ "" ∧ s.aiRef then s.notesRequests ++ [textToSummarize]
        else s.notesRequests
      transcription := LiveText.jsTrim s.transcription ++ "\n\n"
      currentTranscription := "" }
  else s

/-- Source `handleError` of part_001 (lines 118-123): record the
user-visible error message, then run the full stop/teardown. -/
def handleError (e : LiveText.ErrEvent) (s : AppState) : AppState × List LiveText.TeardownAction :=
  stopTranscription
    { s with error := some ("Error: " ++ LiveText.errText e ++ ". Please try again.") }

/-- Source `onclose` callback of part_001 (lines 170-174); as in V0 the
compared `status` is the stale closure-captured value. -/
def onclose (capturedStatus : LiveText.TranscriptionStatus) (s : AppState) :
    AppState × List LiveText.TeardownAction :=
  if capturedStatus ≠ LiveText.TranscriptionStatus.STOPPING ∧
      capturedStatus ≠ LiveText.TranscriptionStatus.IDLE then
    stopTranscription s
  else (s, [])

/-- Source `startTranscription` of part_001 (lines 125-187), up to its
first suspension point.  A missing API key is handled inline: the Korean
error message is set, the status becomes ERROR, and the function returns
before any acquisition. -/
def startTranscription (apiKey : Option String) (s : AppState) :
    AppState × List LiveText.ExtCall :=
  let s := { s with status := LiveText.TranscriptionStatus.CONNECTING,
                    error := none, transcription := "", lectureNotes := "",
                    currentTranscription := "" }
  match apiKey with
  | none =>
      ({ s with
         error := some "API 키가 환경에 설정되지 않았습니다. GitHub Pages와 같은 정적 환경에서는 API 키를 별도로 설정해야 합니다."
         status := LiveText.TranscriptionStatus.ERROR }, [])
  | some _ =>
      ({ s with aiRef := true, stream := true, sessionPromise := true },
       [LiveText.ExtCall.getUserMedia, LiveText.ExtCall.connect])

end V1

/-- A V0 state recording with all resources live. -/
def recState0 : V0.AppState :=
  ⟨TranscriptionStatus.RECORDING, "", none, "", true, true, true, some CtxState.running⟩

/-- A V1 state recording with all resources live. -/
def recState1 : V1.AppState :=
  ⟨TranscriptionStatus.RECORDING, "", "", none, "", true, true, true, true,
   some CtxState.running, []⟩

theorem stop0_fields (s : V0.AppState) :
    (V0.stopTranscription s).1.status = TranscriptionStatus.IDLE ∧
    (V0.stopTranscription s).1.sessionPromise = false ∧
    (V0.stopTranscription s).1.stream = false ∧
    (V0.stopTranscription s).1.scriptProcessor = false ∧
    (V0.stopTranscription s).1.audioContext =
      (if s.audioContext = some CtxState.closed then s.audioContext else none) := by
  rcases s with ⟨st, tr, er, cur, sp, strm, proc, ctx⟩
  refine ⟨rfl, rfl, rfl, rfl, ?_⟩
  rcases ctx with _ | cst
  · simp [V0.stopTranscription]
  · by_cases h : cst = CtxState.closed <;> simp [V0.stopTranscription, h]

/-- The shape of every teardown action list: one optional entry per guard,
in the fixed program order. -/
def guardActs (c1 c2 c3 c4 : Bool) : List TeardownAction :=
  (if c1 then [TeardownAction.closeSession] else []) ++
  (if c2 then [TeardownAction.stopTracks] else []) ++
  (if c3 then [TeardownAction.disconnectProcessor] else []) ++
  (if c4 then [TeardownAction.closeContext] else [])

theorem guardActs_spec (c1 c2 c3 c4 : Bool) :
    (guardActs c1 c2 c3 c4).Sublist
      [TeardownAction.closeSession, TeardownAction.stopTracks,
       TeardownAction.disconnectProcessor, TeardownAction.closeContext] ∧
    (TeardownAction.closeSession ∈ guardActs c1 c2 c3 c4 ↔ c1 = true) ∧
    (TeardownAction.stopTracks ∈ guardActs c1 c2 c3 c4 ↔ c2 = true) ∧
    (TeardownAction.disconnectProcessor ∈ guardActs c1 c2 c3 c4 ↔ c3 = true) ∧
    (TeardownAction.closeContext ∈ guardActs c1 c2 c3 c4 ↔ c4 = true) := by
  cases c1 <;> cases c2 <;> cases c3 <;> cases c4 <;> decide

/-- Whether the audio-context teardown guard fires, as a Bool. -/
def ctxGuard (ctx : Option CtxState) : Bool :=
  decide (ctx ≠ none) && decide (ctx ≠ some CtxState.closed)

theorem stop0_acts_eq (s : V0.AppState) :
    (V0.stopTranscription s).2 =
      guardActs s.sessionPromise s.stream s.scriptProcessor (ctxGuard s.audioContext) := by
  rcases s with ⟨st, tr, er, cur, sp, strm, proc, ctx⟩
  rcases ctx with _ | cst
  · simp [V0.stopTranscription, guardActs, ctxGuard]
  · by_cases h : cst = CtxState.closed <;>
      simp [V0.stopTranscription, guardActs, ctxGuard, h]

theorem ctxGuard_iff (ctx : Option CtxState) :
    ctxGuard ctx = true ↔ (ctx ≠ none ∧ ctx ≠ some CtxState.closed) := by
  simp [ctxGuard]

theorem stop0_acts (s : V0.AppState) :
    (V0.stopTranscription s).2.Sublist
      [TeardownAction.closeSession, TeardownAction.stopTracks,
       TeardownAction.disconnectProcessor, TeardownAction.closeContext] ∧
    (TeardownAction.closeSession ∈ (V0.stopTranscription s).2 ↔ s.sessionPromise = true) ∧
    (TeardownAction.stopTracks ∈ (V0.stopTranscription s).2 ↔ s.stream = true) ∧
    (TeardownAction.disconnectProcessor ∈ (V0.stopTranscription s).2 ↔ s.scriptProcessor = true) ∧
    (TeardownAction.closeContext ∈ (V0.stopTranscription s).2 ↔
      (s.audioContext ≠ none ∧ s.audioContext ≠ some CtxState.closed)) := by
  have h := guardActs_spec s.sessionPromise s.stream s.scriptProcessor (ctxGuard s.audioContext)
  rw [stop0_acts_eq]
  exact ⟨h.1, h.2.1, h.2.2.1, h.2.2.2.1, h.2.2.2.2.trans (ctxGuard_iff s.audioContext)⟩

theorem stop0_idem (s : V0.AppState) :
    V0.stopTranscription (V0.stopTranscription s).1 = ((V0.stopTranscription s).1, []) := by
  rcases s with ⟨st, tr, er, cur, sp, strm, proc, ctx⟩
  rcases ctx with _ | cst
  · by_cases hc : cur = "" <;> simp [V0.stopTranscription, hc]
  · by_cases hc : cur = "" <;> by_cases h : cst = CtxState.closed <;>
      simp [V0.stopTranscription, hc, h]

theorem stop1_fields (s : V1.AppState) :
    (V1.stopTranscription s).1.status = TranscriptionStatus.IDLE ∧
    (V1.stopTranscription s).1.aiRef = false ∧
    (V1.stopTranscription s).1.sessionPromise = false ∧
    (V1.stopTranscription s).1.stream = false ∧
    (V1.stopTranscription s).1.scriptProcessor = false ∧
    (V1.stopTranscription s).1.audioContext =
      (if s.audioContext = some CtxState.closed then s.audioContext else none) := by
  rcases s with ⟨st, tr, ln, er, cur, ai, sp, strm, proc, ctx, nr⟩
  refine ⟨rfl, rfl, rfl, rfl, rfl, ?_⟩
  rcases ctx with _ | cst
  · simp [V1.stopTranscription]
  · by_cases h : cst = CtxState.closed <;> simp [V1.stopTranscription, h]

theorem stop1_acts_eq (s : V1.AppState) :
    (V1.stopTranscription s).2 =
      guardActs s.sessionPromise s.stream s.scriptProcessor (ctxGuard s.audioContext) := by
  rcases s with ⟨st, tr, ln, er, cur, ai, sp, strm, proc, ctx, nr⟩
  rcases ctx with _ | cst
  · simp [V1.stopTranscription, guardActs, ctxGuard]
  · by_cases h : cst = CtxState.closed <;>
      simp [V1.stopTranscription, guardActs, ctxGuard, h]

theorem stop1_acts (s : V1.AppState) :
    (V1.stopTranscription s).2.Sublist
      [TeardownAction.closeSession, TeardownAction.stopTracks,
       TeardownAction.disconnectProcessor, TeardownAction.closeContext] ∧
    (TeardownAction.closeSession ∈ (V1.stopTranscription s).2 ↔ s.sessionPromise = true) ∧
    (TeardownAction.stopTracks ∈ (V1.stopTranscription s).2 ↔ s.stream = true) ∧
    (TeardownAction.disconnectProcessor ∈ (V1.stopTranscription s).2 ↔ s.scriptProcessor = true) ∧
    (TeardownAction.closeContext ∈ (V1.stopTranscription s).2 ↔
      (s.audioContext ≠ none ∧ s.audioContext ≠ some CtxState.closed)) := by
  have h := guardActs_spec s.sessionPromise s.stream s.scriptProcessor (ctxGuard s.audioContext)
  rw [stop1_acts_eq]
  exact ⟨h.1, h.2.1, h.2.2.1, h.2.2.2.1, h.2.2.2.2.trans (ctxGuard_iff s.audioContext)⟩

theorem stop1_idem (s : V1.AppState) :
    V1.stopTranscription (V1.stopTranscription s).1 = ((V1.stopTranscription s).1, []) := by
  rcases s with ⟨st, tr, ln, er, cur, ai, sp, strm, proc, ctx, nr⟩
  rcases ctx with _ | cst
  · simp [V1.stopTranscription]
  · by_cases h : cst = CtxState.closed <;> simp [V1.stopTranscription, h]

/-- A V0 state whose audio-context ref still holds an already-closed
context. -/
def closedCtxState0 : V0.AppState :=
  ⟨TranscriptionStatus.RECORDING, "", none, "", true, true, true, some CtxState.closed⟩

/-- C1 counterexample: from the non-Idle state `closedCtxState0`, whose
audio-context ref holds an already-closed context, `stopTranscription` does
not null all four resource refs — the guard `state !== 'closed'` skips both
the close and the ref assignment, so the audio-context ref survives. -/
theorem C1_counterexample :
    closedCtxState0.status ≠ TranscriptionStatus.IDLE ∧
    (V0.stopTranscription closedCtxState0).1.audioContext ≠ none := by decide

/-- C1 (amended): for every starting state other than Idle, in both
variants, `stopTranscription` ends at Idle; the session, stream and
script-processor refs are null; the audio-context ref is null unless the
context was already closed, in which case the guard skips it and the ref is
retained; the release calls happen in the order session → tracks →
processor → context, each exactly when its guard finds the resource live;
and a second call is a complete no-op: no release calls and an unchanged
state. -/
theorem C1_stop_teardown (s0 : V0.AppState) (s1 : V1.AppState)
    (h0 : s0.status ≠ TranscriptionStatus.IDLE)
    (h1 : s1.status ≠ TranscriptionStatus.IDLE) :
    ((V0.stopTranscription s0).1.status = TranscriptionStatus.IDLE ∧
     (V0.stopTranscription s0).1.sessionPromise = false ∧
     (V0.stopTranscription s0).1.stream = false ∧
     (V0.stopTranscription s0).1.scriptProcessor = false ∧
     (V0.stopTranscription s0).1.audioContext =
       (if s0.audioContext = some CtxState.closed then s0.audioContext else none) ∧
     (V0.stopTranscription s0).2.Sublist
       [TeardownAction.closeSession, TeardownAction.stopTracks,
        TeardownAction.disconnectProcessor, TeardownAction.closeContext] ∧
     (TeardownAction.closeSession ∈ (V0.stopTranscription s0).2 ↔ s0.sessionPromise = true) ∧
     (TeardownAction.stopTracks ∈ (V0.stopTranscription s0).2 ↔ s0.stream = true) ∧
     (TeardownAction.disconnectProcessor ∈ (V0.stopTranscription s0).2 ↔
       s0.scriptProcessor = true) ∧
     (TeardownAction.closeContext ∈ (V0.stopTranscription s0).2 ↔
       (s0.audioContext ≠ none ∧ s0.audioContext ≠ some CtxState.closed)) ∧
     V0.stopTranscription (V0.stopTranscription s0).1 = ((V0.stopTranscription s0).1, [])) ∧
    ((V1.stopTranscription s1).1.status = TranscriptionStatus.IDLE ∧
     (V1.stopTranscription s1).1.aiRef = false ∧
     (V1.stopTranscription s1).1.sessionPromise = false ∧
     (V1.stopTranscription s1).1.stream = false ∧
     (V1.stopTranscription s1).1.scriptProcessor = false ∧
     (V1.stopTranscription s1).1.audioContext =
       (if s1.audioContext = some CtxState.closed then s1.audioContext else none) ∧
     (V1.stopTranscription s1).2.Sublist
       [TeardownAction.closeSession, TeardownAction.stopTracks,
        TeardownAction.disconnectProcessor, TeardownAction.closeContext] ∧
     (TeardownAction.closeSession ∈ (V1.stopTranscription s1).2 ↔ s1.sessionPromise = true) ∧
     (TeardownAction.stopTracks ∈ (V1.stopTranscription s1).2 ↔ s1.stream = true) ∧
     (TeardownAction.disconnectProcessor ∈ (V1.stopTranscription s1).2 ↔
       s1.scriptProcessor = true) ∧
     (TeardownAction.closeContext ∈ (V1.stopTranscription s1).2 ↔
       (s1.audioContext ≠ none ∧ s1.audioContext ≠ some CtxState.closed)) ∧
     V1.stopTranscription (V1.stopTranscription s1).1 = ((V1.stopTranscription s1).1, [])) := by
  obtain ⟨a0, b0, c0, d0, e0⟩ := stop0_fields s0
  obtain ⟨f0, g0, i0, j0, k0⟩ := stop0_acts s0
  obtain ⟨a1, a1', b1, c1, d1, e1⟩ := stop1_fields s1
  obtain ⟨f1, g1, i1, j1, k1⟩ := stop1_acts s1
  exact ⟨⟨a0, b0, c0, d0, e0, f0, g0, i0, j0, k0, stop0_idem s0⟩,
         ⟨a1, a1', b1, c1, d1, e1, f1, g1, i1, j1, k1, stop1_idem s1⟩⟩

/-- C1 witness: the amended stop theorem applied at concrete recording
states with all resources live. -/
theorem C1_witness :
    (recState0.status ≠ TranscriptionStatus.IDLE ∧
     recState1.status ≠ TranscriptionStatus.IDLE) ∧
    (((V0.stopTranscription recState0).1.status = TranscriptionStatus.IDLE ∧
     (V0.stopTranscription recState0).1.sessionPromise = false ∧
     (V0.stopTranscription recState0).1.stream = false ∧
     (V0.stopTranscription recState0).1.scriptProcessor = false ∧
     (V0.stopTranscription recState0).1.audioContext =
       (if recState0.audioContext = some CtxState.closed then recState0.audioContext else none) ∧
     (V0.stopTranscription recState0).2.Sublist
       [TeardownAction.closeSession, TeardownAction.stopTracks,
        TeardownAction.disconnectProcessor, TeardownAction.closeContext] ∧
     (TeardownAction.closeSession ∈ (V0.stopTranscription recState0).2 ↔
       recState0.sessionPromise = true) ∧
     (TeardownAction.stopTracks ∈ (V0.stopTranscription recState0).2 ↔
       recState0.stream = true) ∧
     (TeardownAction.disconnectProcessor ∈ (V0.stopTranscription recState0).2 ↔
       recState0.scriptProcessor = true) ∧
     (TeardownAction.closeContext ∈ (V0.stopTranscription recState0).2 ↔
       (recState0.audioContext ≠ none ∧ recState0.audioContext ≠ some CtxState.closed)) ∧
     V0.stopTranscription (V0.stopTranscription recState0).1 =
       ((V0.stopTranscription recState0).1, [])) ∧
    ((V1.stopTranscription recState1).1.status = TranscriptionStatus.IDLE ∧
     (V1.stopTranscription recState1).1.aiRef = false ∧
     (V1.stopTranscription recState1).1.sessionPromise = false ∧
     (V1.stopTranscription recState1).1.stream = false ∧
     (V1.stopTranscription recState1).1.scriptProcessor = false ∧
     (V1.stopTranscription recState1).1.audioContext =
       (if recState1.audioContext = some CtxState.closed then recState1.audioContext else none) ∧
     (V1.stopTranscription recState1).2.Sublist
       [TeardownAction.closeSession, TeardownAction.stopTracks,
        TeardownAction.disconnectProcessor, TeardownAction.closeContext] ∧
     (TeardownAction.closeSession ∈ (V1.stopTranscription recState1).2 ↔
       recState1.sessionPromise = true) ∧
     (TeardownAction.stopTracks ∈ (V1.stopTranscription recState1).2 ↔
       recState1.stream = true) ∧
     (TeardownAction.disconnectProcessor ∈ (V1.stopTranscription recState1).2 ↔
       recState1.scriptProcessor = true) ∧
     (TeardownAction.closeContext ∈ (V1.stopTranscription recState1).2 ↔
       (recState1.audioContext ≠ none ∧ recState1.audioContext ≠ some CtxState.closed)) ∧
     V1.stopTranscription (V1.stopTranscription recState1).1 =
       ((V1.stopTranscription recState1).1, []))) :=
  ⟨⟨by decide, by decide⟩, C1_stop_teardown recState0 recState1 (by decide) (by decide)⟩

theorem stop0_error (s : V0.AppState) :
    (V0.stopTranscription s).1.error = s.error := rfl

theorem stop1_error (s : V1.AppState) :
    (V1.stopTranscription s).1.error = s.error := rfl

/-- C4 counterexample: when the transport's onerror fires mid-recording
(state `recState0` resp. `recState1`), the resulting status is not Error —
`handleError` routes through `stopTranscription`, which ends at Idle; no
code path sets ERROR on a transport error. -/
theorem C4_counterexample :
    recState0.status = TranscriptionStatus.RECORDING ∧
    (V0.handleError (ErrEvent.error "boom") recState0).1.status ≠
      TranscriptionStatus.ERROR ∧
    recState1.status = TranscriptionStatus.RECORDING ∧
    (V1.handleError (ErrEvent.error "boom") recState1).1.status ≠
      TranscriptionStatus.ERROR := by decide

/-- C4 (amended): whenever the transport's onerror callback fires, both
variants run the full teardown sequence (each release call exactly when its
resource is live, in the fixed order) and set a user-visible error message
containing the underlying error's text; the resulting status is Idle (via
the stop path), not Error. -/
theorem C4_error_routes_through_teardown (e : ErrEvent) (s0 : V0.AppState)
    (s1 : V1.AppState) :
    ((V0.handleError e s0).1.status = TranscriptionStatus.IDLE ∧
     (V0.handleError e s0).1.error =
       some ("Error: " ++ errText e ++ ". Please try again.") ∧
     (V0.handleError e s0).1.sessionPromise = false ∧
     (V0.handleError e s0).1.stream = false ∧
     (V0.handleError e s0).1.scriptProcessor = false ∧
     (V0.handleError e s0).2.Sublist
       [TeardownAction.closeSession, TeardownAction.stopTracks,
        TeardownAction.disconnectProcessor, TeardownAction.closeContext] ∧
     (TeardownAction.closeSession ∈ (V0.handleError e s0).2 ↔ s0.sessionPromise = true) ∧
     (TeardownAction.stopTracks ∈ (V0.handleError e s0).2 ↔ s0.stream = true) ∧
     (TeardownAction.disconnectProcessor ∈ (V0.handleError e s0).2 ↔
       s0.scriptProcessor = true) ∧
     (TeardownAction.closeContext ∈ (V0.handleError e s0).2 ↔
       (s0.audioContext ≠ none ∧ s0.audioContext ≠ some CtxState.closed))) ∧
    ((V1.handleError e s1).1.status = TranscriptionStatus.IDLE ∧
     (V1.handleError e s1).1.error =
       some ("Error: " ++ errText e ++ ". Please try again.") ∧
     (V1.handleError e s1).1.sessionPromise = false ∧
     (V1.handleError e s1).1.stream = false ∧
     (V1.handleError e s1).1.scriptProcessor = false ∧
     (V1.handleError e s1).2.Sublist
       [TeardownAction.closeSession, TeardownAction.stopTracks,
        TeardownAction.disconnectProcessor, TeardownAction.closeContext] ∧
     (TeardownAction.closeSession ∈ (V1.handleError e s1).2 ↔ s1.sessionPromise = true) ∧
     (TeardownAction.stopTracks ∈ (V1.handleError e s1).2 ↔ s1.stream = true) ∧
     (TeardownAction.disconnectProcessor ∈ (V1.handleError e s1).2 ↔
       s1.scriptProcessor = true) ∧
     (TeardownAction.closeContext ∈ (V1.handleError e s1).2 ↔
       (s1.audioContext ≠ none ∧ s1.audioContext ≠ some CtxState.closed))) := by
  obtain ⟨a0, b0, c0, d0, _⟩ :=
    stop0_fields { s0 with error := some ("Error: " ++ errText e ++ ". Please try again.") }
  obtain ⟨f0, g0, i0, j0, k0⟩ :=
    stop0_acts { s0 with error := some ("Error: " ++ errText e ++ ". Please try again.") }
  obtain ⟨a1, _, b1, c1, d1, _⟩ :=
    stop1_fields { s1 with error := some ("Error: " ++ errText e ++ ". Please try again.") }
  obtain ⟨f1, g1, i1, j1, k1⟩ :=
    stop1_acts { s1 with error := some ("Error: " ++ errText e ++ ". Please try again.") }
  exact ⟨⟨a0, stop0_error _, b0, c0, d0, f0, g0, i0, j0, k0⟩,
         ⟨a1, stop1_error _, b1, c1, d1, f1, g1, i1, j1, k1⟩⟩

/-- C6: evaluated at the failing input.  The remote closes while the app is
recording with all resources live (`recState0`, `recState1`); the `status`
the onclose closure captured is IDLE, the value from the render in which
`startTranscription` was invoked.  The handler therefore skips the teardown
entirely (no release calls, state unchanged), although the state at
handling time is Recording; had the handler read the live status, the
teardown would have run (non-empty release list). -/
theorem C6_stale_onclose_skips_teardown :
    recState0.status = TranscriptionStatus.RECORDING ∧
    V0.onclose TranscriptionStatus.IDLE recState0 = (recState0, []) ∧
    (V0.onclose recState0.status recState0).2 ≠ [] ∧
    recState1.status = TranscriptionStatus.RECORDING ∧
    V1.onclose TranscriptionStatus.IDLE recState1 = (recState1, []) ∧
    (V1.onclose recState1.status recState1).2 ≠ [] := by decide

/-- An idle V0 state with no live resources. -/
def idleState0 : V0.AppState :=
  ⟨TranscriptionStatus.IDLE, "", none, "", false, false, false, none⟩

/-- An idle V1 state with no live resources. -/
def idleState1 : V1.AppState :=
  ⟨TranscriptionStatus.IDLE, "", "", none, "", false, false, false, false, none, []⟩

/-- C5 counterexample: in the V0 variant, starting with a missing API key
does not put the status at Error — the thrown error is caught and routed
through `handleError`/`stopTranscription`, which ends at Idle (the message
is still surfaced via the error field). -/
theorem C5_counterexample :
    (V0.startTranscription none idleState0).1.status ≠ TranscriptionStatus.ERROR ∧
    (V0.startTranscription none idleState0).1.status = TranscriptionStatus.IDLE := by decide

/-- C5 (amended): starting with an absent API key issues no external
acquisition calls (no getUserMedia, no connect) in either variant and sets
a descriptive error message; the V1 variant moves directly to Error, while
the V0 variant surfaces the message through its error handler and ends at
Idle with no resources and no release calls (it had nothing to release). -/
theorem C5_missing_key_fails_fast (s0 : V0.AppState) (s1 : V1.AppState)
    (h : s0.sessionPromise = false ∧ s0.stream = false ∧ s0.scriptProcessor = false ∧
         s0.audioContext = none) :
    ((V0.startTranscription none s0).2.1 = [] ∧
     (V0.startTranscription none s0).2.2 = [] ∧
     (V0.startTranscription none s0).1.status = TranscriptionStatus.IDLE ∧
     (V0.startTranscription none s0).1.error =
       some "Error: API_KEY environment variable not set.. Please try again." ∧
     (V0.startTranscription none s0).1.sessionPromise = false ∧
     (V0.startTranscription none s0).1.stream = false ∧
     (V0.startTranscription none s0).1.scriptProcessor = false ∧
     (V0.startTranscription none s0).1.audioContext = none) ∧
    ((V1.startTranscription none s1).2 = [] ∧
     (V1.startTranscription none s1).1.status = TranscriptionStatus.ERROR ∧
     (V1.startTranscription none s1).1.error =
       some "API 키가 환경에 설정되지 않았습니다. GitHub Pages와 같은 정적 환경에서는 API 키를 별도로 설정해야 합니다." ∧
     (V1.startTranscription none s1).1.sessionPromise = s1.sessionPromise ∧
     (V1.startTranscription none s1).1.stream = s1.stream ∧
     (V1.startTranscription none s1).1.scriptProcessor = s1.scriptProcessor ∧
     (V1.startTranscription none s1).1.audioContext = s1.audioContext) := by
  obtain ⟨hsp, hstrm, hproc, hctx⟩ := h
  rcases s0 with ⟨st0, tr0, er0, cur0, sp0, strm0, proc0, ctx0⟩
  rcases s1 with ⟨st1, tr1, ln1, er1, cur1, ai1, sp1, strm1, proc1, ctx1, nr1⟩
  simp only at hsp hstrm hproc hctx
  subst hsp hstrm hproc hctx
  constructor
  · simp [V0.startTranscription, V0.handleError, V0.stopTranscription, errText]
  · simp [V1.startTranscription]

/-- C5 witness: the missing-key theorem applied at the concrete idle
states. -/
theorem C5_witness :
    (idleState0.sessionPromise = false ∧ idleState0.stream = false ∧
     idleState0.scriptProcessor = false ∧ idleState0.audioContext = none) ∧
    (((V0.startTranscription none idleState0).2.1 = [] ∧
      (V0.startTranscription none idleState0).2.2 = [] ∧
      (V0.startTranscription none idleState0).1.status = TranscriptionStatus.IDLE ∧
      (V0.startTranscription none idleState0).1.error =
        some "Error: API_KEY environment variable not set.. Please try again." ∧
      (V0.startTranscription none idleState0).1.sessionPromise = false ∧
      (V0.startTranscription none idleState0).1.stream = false ∧
      (V0.startTranscription none idleState0).1.scriptProcessor = false ∧
      (V0.startTranscription none idleState0).1.audioContext = none) ∧
     ((V1.startTranscription none idleState1).2 = [] ∧
      (V1.startTranscription none idleState1).1.status = TranscriptionStatus.ERROR ∧
      (V1.startTranscription none idleState1).1.error =
        some "API 키가 환경에 설정되지 않았습니다. GitHub Pages와 같은 정적 환경에서는 API 키를 별도로 설정해야 합니다." ∧
      (V1.startTranscription none idleState1).1.sessionPromise = idleState1.sessionPromise ∧
      (V1.startTranscription none idleState1).1.stream = idleState1.stream ∧
      (V1.startTranscription none idleState1).1.scriptProcessor = idleState1.scriptProcessor ∧
      (V1.startTranscription none idleState1).1.audioContext = idleState1.audioContext)) :=
  ⟨⟨rfl, rfl, rfl, rfl⟩,
   C5_missing_key_fails_fast idleState0 idleState1 ⟨rfl, rfl, rfl, rfl⟩⟩

/-- A V1 recording state with uncommitted text in the live buffer. -/
def bufState1 : V1.AppState :=
  ⟨TranscriptionStatus.RECORDING, "Hello", "", none, "Hello", true, true, true, true,
   some CtxState.running, []⟩

/-- C7 counterexample: in the V1 variant, stopping while the live buffer
holds the non-empty uncommitted text "Hello" leaves the committed
transcript unchanged — `stopTranscription` of part_001 performs no flush
(the appended value a flush would have produced differs from the actual
result). -/
theorem C7_counterexample :
    bufState1.currentTranscription ≠ "" ∧
    (V1.stopTranscription bufState1).1.transcription = bufState1.transcription ∧
    (V1.stopTranscription bufState1).1.transcription ≠
      jsTrim (bufState1.transcription ++ bufState1.currentTranscription) := by decide

/-- C7 (amended): in the V0 variant, stopping while the live buffer holds
non-empty uncommitted text flushes it: the committed transcript becomes the
trimmed concatenation of the previous transcript and the buffer, the buffer
is cleared, and the state returns to Idle.  (The V1 variant's stop performs
no such flush; see the counterexample.) -/
theorem C7_stop_flushes_live_buffer_v0 (s : V0.AppState)
    (h : s.currentTranscription ≠ "") :
    (V0.stopTranscription s).1.transcription =
      jsTrim (s.transcription ++ s.currentTranscription) ∧
    (V0.stopTranscription s).1.currentTranscription = "" ∧
    (V0.stopTranscription s).1.status = TranscriptionStatus.IDLE := by
  rcases s with ⟨st, tr, er, cur, sp, strm, proc, ctx⟩
  simp only at h
  simp [V0.stopTranscription, h]

/-- A V0 recording state with uncommitted text in the live buffer. -/
def bufState0 : V0.AppState :=
  ⟨TranscriptionStatus.RECORDING, "Hello ", none, "world", true, true, true,
   some CtxState.running⟩

/-- C7 witness: the flush theorem applied at a concrete recording state
with a non-empty live buffer. -/
theorem C7_witness :
    bufState0.currentTranscription ≠ "" ∧
    ((V0.stopTranscription bufState0).1.transcription =
      jsTrim (bufState0.transcription ++ bufState0.currentTranscription) ∧
     (V0.stopTranscription bufState0).1.currentTranscription = "" ∧
     (V0.stopTranscription bufState0).1.status = TranscriptionStatus.IDLE) :=
  ⟨by decide, C7_stop_flushes_live_buffer_v0 bufState0 (by decide)⟩

/-- Concatenation of a fragment sequence in arrival order. -/
def joinAll : List String → String
  | [] => ""
  | f :: fs => f ++ joinAll fs

/-- Deliver a sequence of server messages to the V0 handler, in order. -/
def run0 (ms : List Msg) (s : V0.AppState) : V0.AppState :=
  ms.foldl (fun s m => V0.handleMessage m s) s

/-- Deliver a sequence of server messages to the V1 handler, in order. -/
def run1 (ms : List Msg) (s : V1.AppState) : V1.AppState :=
  ms.foldl (fun s m => V1.handleMessage m s) s

theorem jsTrim_empty : jsTrim "" = "" := rfl

theorem run0_frags : ∀ (fs : List String) (s : V0.AppState),
    run0 (fs.map fragMsg) s =
      { s with transcription := s.transcription ++ joinAll fs,
               currentTranscription := s.currentTranscription ++ joinAll fs } := by
  intro fs
  induction fs with
  | nil => intro s; simp [run0, joinAll]
  | cons f fs ih =>
      intro s
      simp only [List.map_cons, run0, List.foldl_cons]
      have : V0.handleMessage (fragMsg f) s =
          { s with transcription := s.transcription ++ f,
                   currentTranscription := s.currentTranscription ++ f } := by
        simp [V0.handleMessage, fragMsg]
      rw [this]
      have ih' := ih { s with transcription := s.transcription ++ f,
                              currentTranscription := s.currentTranscription ++ f }
      simp only [run0] at ih'
      rw [ih']
      simp [joinAll, String.append_assoc]

theorem run1_frags : ∀ (fs : List String) (s : V1.AppState),
    run1 (fs.map fragMsg) s =
      { s with transcription := s.transcription ++ joinAll fs,
               currentTranscription := s.currentTranscription ++ joinAll fs } := by
  intro fs
  induction fs with
  | nil => intro s; simp [run1, joinAll]
  | cons f fs ih =>
      intro s
      simp only [List.map_cons, run1, List.foldl_cons]
      have : V1.handleMessage (fragMsg f) s =
          { s with transcription := s.transcription ++ f,
                   currentTranscription := s.currentTranscription ++ f } := by
        simp [V1.handleMessage, fragMsg]
      rw [this]
      have ih' := ih { s with transcription := s.transcription ++ f,
                              currentTranscription := s.currentTranscription ++ f }
      simp only [run1] at ih'
      rw [ih']
      simp [joinAll, String.append_assoc]

/-- C2: for every fragment sequence F1..Fn followed by one turn-complete
event, starting from a cleared state, the committed transcript equals the
trimmed concatenation of F1..Fn followed by exactly one paragraph separator
and the live buffer is empty — in both variants. -/
theorem C2_turn_complete_commits (fs : List String) :
    (run0 (fs.map fragMsg ++ [turnMsg]) idleState0).transcription =
      jsTrim (joinAll fs) ++ "\n\n" ∧
    (run0 (fs.map fragMsg ++ [turnMsg]) idleState0).currentTranscription = "" ∧
    (run1 (fs.map fragMsg ++ [turnMsg]) idleState1).transcription =
      jsTrim (joinAll fs) ++ "\n\n" ∧
    (run1 (fs.map fragMsg ++ [turnMsg]) idleState1).currentTranscription = "" := by
  have h0 : run0 (fs.map fragMsg ++ [turnMsg]) idleState0 =
      V0.handleMessage turnMsg (run0 (fs.map fragMsg) idleState0) := by
    simp [run0, List.foldl_append]
  have h1 : run1 (fs.map fragMsg ++ [turnMsg]) idleState1 =
      V1.handleMessage turnMsg (run1 (fs.map fragMsg) idleState1) := by
    simp [run1, List.foldl_append]
  rw [h0, h1, run0_frags fs idleState0, run1_frags fs idleState1]
  simp [V0.handleMessage, V1.handleMessage, turnMsg, idleState0, idleState1]

/-- C8: after a turn-complete event the live buffer is empty, and a second
back-to-back turn-complete event appends only the (empty) trimmed buffer
plus one paragraph separator to the trimmed transcript, leaves the recorded
summarization requests unchanged (the guard rejects the empty chunk), and
leaves the buffer empty. -/
theorem C8_duplicate_turn_boundary (s0 : V0.AppState) (s1 : V1.AppState) :
    ((V0.handleMessage turnMsg s0).currentTranscription = "" ∧
     (V0.handleMessage turnMsg (V0.handleMessage turnMsg s0)).transcription =
       jsTrim ((V0.handleMessage turnMsg s0).transcription) ++ "\n\n" ∧
     (V0.handleMessage turnMsg (V0.handleMessage turnMsg s0)).currentTranscription = "") ∧
    ((V1.handleMessage turnMsg s1).currentTranscription = "" ∧
     (V1.handleMessage turnMsg (V1.handleMessage turnMsg s1)).notesRequests =
       (V1.handleMessage turnMsg s1).notesRequests ∧
     (V1.handleMessage turnMsg (V1.handleMessage turnMsg s1)).transcription =
       jsTrim ((V1.handleMessage turnMsg s1).transcription) ++ "\n\n" ∧
     (V1.handleMessage turnMsg (V1.handleMessage turnMsg s1)).currentTranscription = "") := by
  constructor
  · simp [V0.handleMessage, turnMsg]
  · simp [V1.handleMessage, turnMsg, jsTrim_empty]

theorem handleMessage_proj (m : Msg) (s0 : V0.AppState) (s1 : V1.AppState)
    (ht : s0.transcription = s1.transcription)
    (hc : s0.currentTranscription = s1.currentTranscription) :
    (V0.handleMessage m s0).transcription = (V1.handleMessage m s1).transcription ∧
    (V0.handleMessage m s0).currentTranscription =
      (V1.handleMessage m s1).currentTranscription := by
  rcases m with ⟨it, tc⟩
  rcases it with _ | t <;> cases tc <;>
    simp [V0.handleMessage, V1.handleMessage, ht, hc]

theorem run_proj : ∀ (ms : List Msg) (s0 : V0.AppState) (s1 : V1.AppState),
    s0.transcription = s1.transcription →
    s0.currentTranscription = s1.currentTranscription →
    (run0 ms s0).transcription = (run1 ms s1).transcription ∧
    (run0 ms s0).currentTranscription = (run1 ms s1).currentTranscription := by
  intro ms
  induction ms with
  | nil => intro s0 s1 ht hc; exact ⟨ht, hc⟩
  | cons m ms ih =>
      intro s0 s1 ht hc
      obtain ⟨ht', hc'⟩ := handleMessage_proj m s0 s1 ht hc
      exact ih (V0.handleMessage m s0) (V1.handleMessage m s1) ht' hc'

theorem handleMessage_notes (m : Msg) (s : V1.AppState) :
    (V1.handleMessage m s).notesRequests = s.notesRequests ∨
    (m.turnComplete = true ∧ ∃ ch, ch ≠ "" ∧
      (V1.handleMessage m s).notesRequests = s.notesRequests ++ [ch]) := by
  rcases m with ⟨it, tc⟩
  cases tc
  · left; rcases it with _ | t <;> simp [V1.handleMessage]
  · rcases it with _ | t
    · by_cases h : jsTrim s.currentTranscription ≠ "" ∧ s.aiRef = true
      · right
        exact ⟨rfl, jsTrim s.currentTranscription, h.1, by simp [V1.handleMessage, h]⟩
      · left; simp [V1.handleMessage, h]
    · by_cases h : jsTrim (s.currentTranscription ++ t) ≠ "" ∧ s.aiRef = true
      · right
        exact ⟨rfl, jsTrim (s.currentTranscription ++ t), h.1, by simp [V1.handleMessage, h]⟩
      · left; simp [V1.handleMessage, h]

theorem run1_notes_mono : ∀ (ms : List Msg) (s : V1.AppState),
    ∃ extra, (run1 ms s).notesRequests = s.notesRequests ++ extra := by
  intro ms
  induction ms with
  | nil => intro s; exact ⟨[], by simp [run1]⟩
  | cons m ms ih =>
      intro s
      obtain ⟨extra, hx⟩ := ih (V1.handleMessage m s)
      rcases handleMessage_notes m s with h | ⟨_, ch, _, h⟩
      · exact ⟨extra, by simpa [run1, h] using hx⟩
      · refine ⟨ch :: extra, ?_⟩
        have : (run1 (m :: ms) s) = run1 ms (V1.handleMessage m s) := by
          simp [run1]
        rw [this, hx, h]
        simp

/-- C10: for every sequence of server messages, the two variants' message
handlers compute identical committed-transcript and live-buffer values
(given equal starting values); the V1 variant differs only by appending
summarization requests, each issued at a turn-complete step and carrying a
non-empty chunk. -/
theorem C10_handlers_agree (ms : List Msg) (s0 : V0.AppState) (s1 : V1.AppState)
    (ht : s0.transcription = s1.transcription)
    (hc : s0.currentTranscription = s1.currentTranscription) :
    ((run0 ms s0).transcription = (run1 ms s1).transcription ∧
     (run0 ms s0).currentTranscription = (run1 ms s1).currentTranscription) ∧
    (∃ extra, (run1 ms s1).notesRequests = s1.notesRequests ++ extra) ∧
    (∀ (m : Msg) (s : V1.AppState),
      (V1.handleMessage m s).notesRequests = s.notesRequests ∨
      (m.turnComplete = true ∧ ∃ ch, ch ≠ "" ∧
        (V1.handleMessage m s).notesRequests = s.notesRequests ++ [ch])) :=
  ⟨run_proj ms s0 s1 ht hc, run1_notes_mono ms s1, handleMessage_notes⟩

/-- C10 witness: the agreement theorem applied at concrete states and a
concrete message sequence. -/
theorem C10_witness :
    (idleState0.transcription = idleState1.transcription ∧
     idleState0.currentTranscription = idleState1.currentTranscription) ∧
    (((run0 [fragMsg "Hi", turnMsg] idleState0).transcription =
       (run1 [fragMsg "Hi", turnMsg] idleState1).transcription ∧
      (run0 [fragMsg "Hi", turnMsg] idleState0).currentTranscription =
       (run1 [fragMsg "Hi", turnMsg] idleState1).currentTranscription) ∧
     (∃ extra, (run1 [fragMsg "Hi", turnMsg] idleState1).notesRequests =
       idleState1.notesRequests ++ extra) ∧
     (∀ (m : Msg) (s : V1.AppState),
       (V1.handleMessage m s).notesRequests = s.notesRequests ∨
       (m.turnComplete = true ∧ ∃ ch, ch ≠ "" ∧
         (V1.handleMessage m s).notesRequests = s.notesRequests ++ [ch]))) :=
  ⟨⟨rfl, rfl⟩, C10_handlers_agree [fragMsg "Hi", turnMsg] idleState0 idleState1 rfl rfl⟩

/-- Events of the outbound-audio pipeline: an `onaudioprocess` callback
firing with one Float32 block, or the resolution of the pending session
open. -/
inductive PEvent
  | frame (data : List ℚ)
  | resolve
deriving DecidableEq

/-- The outbound side of the session promise: the callbacks registered by
`sessionPromiseRef.current?.then(...)` while the promise is pending
(holding the blob each would send), the blobs already handed to
`session.sendRealtimeInput`, and whether the promise has resolved. -/
structure SendState where
  queued : List Blob
  sent : List Blob
  resolved : Bool
deriving DecidableEq

/-- One step of the outbound pipeline, modelling the JS promise reaction
queue that `onaudioprocess` (part_000 lines 123-129, part_001 lines
157-163) relies on: the blob is produced synchronously by `createBlob` at
capture time; a `.then` registered while the promise is pending enqueues
its callback in registration order; once the promise resolves, queued
callbacks run in that order, and later `.then` registrations run their
callback directly. -/
def sendStep (s : SendState) : PEvent → SendState
  | .frame d =>
      if s.resolved then { s with sent := s.sent ++ [createBlob d] }
      else { s with queued := s.queued ++ [createBlob d] }
  | .resolve => { queued := [], sent := s.sent ++ s.queued, resolved := true }

/-- Run the outbound pipeline from a given state. -/
def runSendFrom (evs : List PEvent) (s : SendState) : SendState :=
  evs.foldl sendStep s

/-- Run the outbound pipeline from the initial (pending, empty) state. -/
def runSend (evs : List PEvent) : SendState :=
  runSendFrom evs ⟨[], [], false⟩

/-- The audio blocks captured by the event sequence, in capture order. -/
def capturedFrames (evs : List PEvent) : List (List ℚ) :=
  evs.filterMap fun e =>
    match e with
    | .frame d => some d
    | .resolve => none

theorem runSendFrom_spec : ∀ (evs : List PEvent) (s : SendState),
    (s.resolved = true → s.queued = []) →
    ((runSendFrom evs s).sent ++ (runSendFrom evs s).queued =
      s.sent ++ s.queued ++ (capturedFrames evs).map createBlob) ∧
    ((runSendFrom evs s).resolved = true → (runSendFrom evs s).queued = []) := by
  intro evs
  induction evs with
  | nil => intro s hinv; exact ⟨by simp [runSendFrom, capturedFrames], hinv⟩
  | cons e evs ih =>
      intro s hinv
      rcases e with d | _
      · by_cases hr : s.resolved = true
        · have hq := hinv hr
          have step : sendStep s (PEvent.frame d) = { s with sent := s.sent ++ [createBlob d] } := by
            simp [sendStep, hr]
          have ih' := ih { s with sent := s.sent ++ [createBlob d] }
            (by intro _; exact hq)
          refine ⟨?_, ?_⟩
          · have := ih'.1
            simp only [runSendFrom] at this
            simp only [runSendFrom, List.foldl_cons, step]
            rw [this]
            simp [capturedFrames, hq, List.append_assoc]
          · have := ih'.2
            simp only [runSendFrom, List.foldl_cons, step]
            exact this
        · have step : sendStep s (PEvent.frame d) =
              { s with queued := s.queued ++ [createBlob d] } := by
            simp [sendStep, hr]
          have ih' := ih { s with queued := s.queued ++ [createBlob d] }
            (by intro h; exact absurd h hr)
          refine ⟨?_, ?_⟩
          · have := ih'.1
            simp only [runSendFrom] at this
            simp only [runSendFrom, List.foldl_cons, step]
            rw [this]
            simp [capturedFrames, List.append_assoc]
          · have := ih'.2
            simp only [runSendFrom, List.foldl_cons, step]
            exact this
      · have step : sendStep s PEvent.resolve =
            { queued := [], sent := s.sent ++ s.queued, resolved := true } := rfl
        have ih' := ih { queued := [], sent := s.sent ++ s.queued, resolved := true }
          (by intro _; rfl)
        refine ⟨?_, ?_⟩
        · have := ih'.1
          simp only [runSendFrom] at this
          simp only [runSendFrom, List.foldl_cons, step]
          rw [this]
          simp [capturedFrames]
        · have := ih'.2
          simp only [runSendFrom, List.foldl_cons, step]
          exact this

/-- C9: for every sequence of capture and resolution events, the blobs
handed to the session followed by the blobs still queued behind the pending
open are exactly the captured blocks' blobs in capture order — no frame is
dropped or reordered; and once the session open has resolved the queue is
empty and every captured frame has been sent, in capture order. -/
theorem C9_frames_sent_in_capture_order (evs : List PEvent) :
    (runSend evs).sent ++ (runSend evs).queued = (capturedFrames evs).map createBlob ∧
    ((runSend evs).resolved = true →
      (runSend evs).queued = [] ∧
      (runSend evs).sent = (capturedFrames evs).map createBlob) := by
  have h := runSendFrom_spec evs ⟨[], [], false⟩ (by intro h; rfl)
  refine ⟨by simpa using h.1, ?_⟩
  intro hr
  have hq := h.2 hr
  refine ⟨hq, ?_⟩
  have h1 := h.1
  rw [hq, List.append_nil] at h1
  simpa using h1

/-- Concrete event sequence: one frame while pending, resolution, one frame
after. -/
def evsEx : List PEvent := [PEvent.frame [0], PEvent.resolve, PEvent.frame [1]]

/-- C9 witness: the ordering theorem applied at a concrete event sequence
whose session resolves mid-run. -/
theorem C9_witness :
    (runSend evsEx).resolved = true ∧
    ((runSend evsEx).queued = [] ∧
     (runSend evsEx).sent = (capturedFrames evsEx).map createBlob) :=
  ⟨by decide, (C9_frames_sent_in_capture_order evsEx).2 (by decide)⟩

end LiveText
